import Mathlib

/-!
Verification development for the mini-game-engine repository.

The repository ships several revisions of the same small 2D engine:

* `src/game-engine.js` — the named main file. Its geometric overlap test is
  `Level.objectsCollide` (inclusive boundaries), `GameObject.collidesWith`
  delegates to it, and `GameObject.allCollisions` takes no options.
* `src/unnamed/part_002` (second document) and the TypeScript engine embedded
  in `src/test/game.js` — the evolved revisions holding the movement core:
  `GameObject.move`, `moveByVector`, a strict-boundary `collidesWith`, an
  optioned `allCollisions`, and `distanceTo`. The two differ in exactly one
  token: the part_002 revision calls `Math.min(array)` without a spread while
  the test revision calls `Math.min(...array)`.

Coordinates and sizes are embedded as rationals (exact pixel arithmetic on the
non-NaN paths). A second, smaller layer embeds JavaScript numbers as
`Option Rat` with `none` playing the role of NaN, for the paths where the code
really produces NaN (division 0/0 in `moveByVector`, `Math.min` applied to a
multi-element array in part_002).
-/

/-- An entity of a level: `oid` stands for the JavaScript object reference
(each `new GameObject(...)` allocates a fresh one), `x y` the position,
`w h` the width and height, `collision` the collidability flag. Fields the
claims never touch (z, assets, draw, damage, controllable) are omitted. -/
structure Obj where
  oid : Nat
  x : ℚ
  y : ℚ
  w : ℚ
  h : ℚ
  collision : Bool
deriving DecidableEq, Repr

/-- Overlap test of `Level.objectsCollide` (src/game-engine.js lines 314-322):
separation is strict `<` on each side, so rectangles whose edges share a
coordinate are reported as colliding. -/
def objectsCollide (o1 o2 : Obj) : Bool :=
  if (o1.x + o1.w < o2.x)
      ∨ (o2.x + o2.w < o1.x)
      ∨ (o1.y + o1.h < o2.y)
      ∨ (o2.y + o2.h < o1.y)
  then false
  else true

/-- Overlap test of `GameObject.collidesWith` in src/unnamed/part_002 lines
809-820 and src/test/game.js lines 741-752: on each axis, either the left
edge of `b` lies in the half-open span of `a`, or the right edge of `b` lies
in the half-open-from-the-right span of `a`. -/
def collidesWith (a b : Obj) : Bool :=
  ((decide (a.x ≤ b.x) && decide (b.x < a.x + a.w))
      || (decide (a.x < b.x + b.w) && decide (b.x + b.w ≤ a.x + a.w)))
    &&
  ((decide (a.y ≤ b.y) && decide (b.y < a.y + a.h))
      || (decide (a.y < b.y + b.h) && decide (b.y + b.h ≤ a.y + a.h)))

/-- Signed per-axis gap of `GameObject.distanceTo` (src/unnamed/part_002 lines
846-857): zero when the objects collide, otherwise the signed pixel distance
between the closest borders along each axis (zero on an axis whose extents
already overlap). -/
def distanceTo (a b : Obj) : ℚ × ℚ :=
  if collidesWith a b then (0, 0)
  else
    ((if b.x + b.w < a.x then (b.x + b.w) - a.x
      else if a.x + a.w < b.x then b.x - (a.x + a.w)
      else 0),
     (if b.y + b.h < a.y then (b.y + b.h) - a.y
      else if a.y + a.h < b.y then b.y - (a.y + a.h)
      else 0))

/-- Optioned `GameObject.allCollisions` of src/unnamed/part_002 lines 830-838
and src/test/game.js lines 762-770: skip the receiver itself and the excluded
objects (reference comparison, embedded as `oid` equality), skip pairs lacking
a `collision` flag unless `forceCollision`, keep geometric collisions. -/
def allCollisions (self : Obj) (objects : List Obj) (exclude : List Obj)
    (force : Bool) : List Obj :=
  objects.filter (fun o =>
    !(decide (o.oid = self.oid))
      && !(exclude.any (fun e => decide (e.oid = o.oid)))
      && (force || (self.collision && o.collision))
      && collidesWith self o)

/-- Un-optioned `GameObject.allCollisions` of src/game-engine.js lines
392-401: skips the receiver, skips objects whose own `collision` flag is
false (the flag of the receiver is never consulted), and tests geometry with
`Level.objectsCollide` (to which `collidesWith` delegates in that file). -/
def allCollisionsGE (self : Obj) (objects : List Obj) : List Obj :=
  objects.filter (fun o =>
    !(decide (o.oid = self.oid))
      && o.collision
      && objectsCollide self o)

/- ### Claim C5 — touching edges -/

/-- Counterexample for claim C5. Two 32x32 squares whose vertical edges
touch exactly (a.x + a.w = 32 = b.x) while their y extents coincide: the
strict overlap test `collidesWith` of part_002/test reports NO collision,
refuting the claim that the overlap test treats touching edges as colliding;
only `Level.objectsCollide` of game-engine.js does. -/
theorem touching_edges_not_colliding_in_strict_test :
    collidesWith ⟨1, 0, 0, 32, 32, true⟩ ⟨2, 32, 0, 32, 32, true⟩ = false
      ∧ objectsCollide ⟨1, 0, 0, 32, 32, true⟩ ⟨2, 32, 0, 32, 32, true⟩ = true := by
  refine ⟨by norm_num [collidesWith], by norm_num [objectsCollide]⟩

/-- Claim C5, amended: for rectangles with positive widths whose vertical
edges exactly touch while the y extents intersect (inclusively), the
`Level.objectsCollide` test of game-engine.js reports a collision, but the
`GameObject.collidesWith` test of the part_002/test revisions reports none in
either orientation — the inclusive convention holds only in the former. -/
theorem touching_edges_split_convention (a b : Obj)
    (haw : 0 < a.w) (hbw : 0 < b.w)
    (hx : a.x + a.w = b.x)
    (hy1 : b.y ≤ a.y + a.h) (hy2 : a.y ≤ b.y + b.h) :
    objectsCollide a b = true
      ∧ collidesWith a b = false
      ∧ collidesWith b a = false := by
  refine ⟨?_, ?_, ?_⟩
  · unfold objectsCollide
    rw [if_neg]
    push_neg
    refine ⟨by rw [hx], ?_, by linarith, by linarith⟩
    rw [← hx]
    linarith
  · unfold collidesWith
    have h1 : ¬ (b.x < a.x + a.w) := by rw [hx]; exact lt_irrefl _
    have h2 : ¬ (b.x + b.w ≤ a.x + a.w) := by rw [hx]; linarith
    simp [h1, h2]
  · unfold collidesWith
    have h1 : ¬ (b.x ≤ a.x) := by rw [← hx]; push_neg; linarith
    have h2 : ¬ (b.x < a.x + a.w) := by rw [hx]; exact lt_irrefl _
    simp [h1, h2]

/-- Witness for the amended claim C5 at the concrete touching pair of the
spec (two 32x32 squares side by side). -/
theorem touching_edges_split_convention_witness :
    objectsCollide ⟨1, 0, 0, 32, 32, true⟩ ⟨2, 32, 0, 32, 32, true⟩ = true
      ∧ collidesWith ⟨1, 0, 0, 32, 32, true⟩ ⟨2, 32, 0, 32, 32, true⟩ = false
      ∧ collidesWith ⟨2, 32, 0, 32, 32, true⟩ ⟨1, 0, 0, 32, 32, true⟩ = false :=
  touching_edges_split_convention ⟨1, 0, 0, 32, 32, true⟩ ⟨2, 32, 0, 32, 32, true⟩
    (by norm_num) (by norm_num) (by norm_num) (by norm_num) (by norm_num)

/- ### Claim C6 — symmetry of the geometric test -/

/-- Counterexample for claim C6: a 3x3 square strictly containing a 1x1
square, both with the `collision` flag set. The strict `collidesWith` of
part_002/test is asymmetric on containment: the big one sees a collision,
the small one does not. -/
theorem collidesWith_asymmetric_on_containment :
    collidesWith ⟨1, 0, 0, 3, 3, true⟩ ⟨2, 1, 1, 1, 1, true⟩ = true
      ∧ collidesWith ⟨2, 1, 1, 1, 1, true⟩ ⟨1, 0, 0, 3, 3, true⟩ = false := by
  refine ⟨by norm_num [collidesWith], by norm_num [collidesWith]⟩

/-- Claim C6, amended: the geometric test `Level.objectsCollide` of
game-engine.js (which also backs `collidesWith` in that file) is symmetric
for all pairs; the strict `GameObject.collidesWith` of the part_002/test
revisions is not (see the containment counterexample). -/
theorem objectsCollide_symmetric (a b : Obj) :
    objectsCollide a b = objectsCollide b a := by
  unfold objectsCollide
  rcases em (a.x + a.w < b.x ∨ b.x + b.w < a.x ∨ a.y + a.h < b.y ∨ b.y + b.h < a.y) with h | h
  · rw [if_pos h, if_pos (by tauto)]
  · rw [if_neg h, if_neg (by tauto)]

/- ### Movement core (GameObject.move, src/test/game.js lines 678-712;
identical in src/unnamed/part_002 lines 747-781 except for the missing
spread in Math.min, treated separately below) -/

/-- A `new GameObject(...)` allocates a fresh reference: modelled by an oid
strictly larger than every oid in sight. -/
def freshOid (objects : List Obj) : Nat :=
  (objects.map (fun o => o.oid)).foldr max 0 + 1

/-- Math.min over a spread non-empty argument list: the least element. The
empty case (JavaScript would give Infinity) is unreachable here because every
use is guarded by a non-empty collision list. -/
def listMin : List ℚ → ℚ
  | [] => 0
  | q :: qs => qs.foldl min q

/-- The ghost sent to the fully moved position, built with collision: true
whatever the mover has (`new GameObject(this.level, { position: {x, y},
width, height, collision: true })`). -/
def moveProbeXY (self : Obj) (speed : ℚ × ℚ) (objects : List Obj) : Obj :=
  { oid := freshOid (self :: objects), x := self.x + speed.1,
    y := self.y + speed.2, w := self.w, h := self.h, collision := true }

/-- The blocking candidates of a move: collisions of the full-vector ghost
against the level objects, excluding the mover itself
(`tempXY.allCollisions({ exclude: [this] })`). -/
def moveCols (self : Obj) (speed : ℚ × ℚ) (objects : List Obj) : List Obj :=
  allCollisions (moveProbeXY self speed objects) objects [self] false

/-- Per-axis minimum of the directional gaps from the mover to the colliding
candidates (`{ x: Math.min(...distances.map(d => d.x)), y: ... }`, distances
being `collisionsXY.map(obj => this.distanceTo(obj))`). -/
def minDistance (self : Obj) (cols : List Obj) : ℚ × ℚ :=
  (listMin (cols.map (fun o => (distanceTo self o).1)),
   listMin (cols.map (fun o => (distanceTo self o).2)))

/-- The ghost testing X alone: adjusted x, original y (`tempX`). -/
def moveProbeX (self : Obj) (speed : ℚ × ℚ) (objects : List Obj) : Obj :=
  { oid := freshOid (self :: objects),
    x := self.x + speed.1 + (minDistance self (moveCols self speed objects)).1,
    y := self.y, w := self.w, h := self.h, collision := true }

/-- The ghost testing Y alone: original x, adjusted y (`tempY`). -/
def moveProbeY (self : Obj) (speed : ℚ × ℚ) (objects : List Obj) : Obj :=
  { oid := freshOid (self :: objects),
    x := self.x,
    y := self.y + speed.2 + (minDistance self (moveCols self speed objects)).2,
    w := self.w, h := self.h, collision := true }

/-- `GameObject.move` of src/test/game.js lines 678-712: advance by the speed
vector, and when the full-vector ghost collides, close the per-axis gap to
the nearest blocking candidates and keep a speed component only where its
single-axis ghost is free while the other one is blocked. The committed
position is returned; `objects` is the list of the level. -/
def move (self : Obj) (speed : ℚ × ℚ) (objects : List Obj) : ℚ × ℚ :=
  let x := self.x + speed.1
  let y := self.y + speed.2
  let cols := moveCols self speed objects
  if 0 < cols.length then
    let d := minDistance self cols
    let x2 := x + d.1
    let y2 := y + d.2
    let collidesX := 0 < (allCollisions (moveProbeX self speed objects) objects [self] false).length
    let collidesY := 0 < (allCollisions (moveProbeY self speed objects) objects [self] false).length
    if collidesX ∧ ¬ collidesY then (x2 - speed.1, y2)
    else if collidesY ∧ ¬ collidesX then (x2, y2 - speed.2)
    else (x2 - speed.1, y2 - speed.2)
  else (x, y)

/- Helper lemmas about listMin and freshOid. -/

theorem foldl_min_le_init (qs : List ℚ) (q : ℚ) : qs.foldl min q ≤ q := by
  induction qs generalizing q with
  | nil => exact le_refl q
  | cons a t ih => exact le_trans (ih (min q a)) (min_le_left q a)

theorem foldl_min_le_mem (qs : List ℚ) (q a : ℚ) (ha : a ∈ qs) :
    qs.foldl min q ≤ a := by
  induction qs generalizing q with
  | nil => cases ha
  | cons b t ih =>
    rcases List.mem_cons.mp ha with h | h
    · subst h
      exact le_trans (foldl_min_le_init t (min q a)) (min_le_right q a)
    · exact ih (min q b) h

theorem foldl_min_choice (qs : List ℚ) (q : ℚ) :
    qs.foldl min q = q ∨ qs.foldl min q ∈ qs := by
  induction qs generalizing q with
  | nil => exact Or.inl rfl
  | cons a t ih =>
    rcases ih (min q a) with h | h
    · rcases min_choice q a with hq | ha
      · exact Or.inl (by rw [List.foldl_cons, h, hq])
      · exact Or.inr (by rw [List.foldl_cons, h, ha]; exact List.mem_cons_self a t)
    · exact Or.inr (List.mem_cons_of_mem a h)

theorem listMin_le (l : List ℚ) (a : ℚ) (ha : a ∈ l) : listMin l ≤ a := by
  cases l with
  | nil => cases ha
  | cons q qs =>
    rcases List.mem_cons.mp ha with h | h
    · subst h; exact foldl_min_le_init qs a
    · exact foldl_min_le_mem qs q a h

theorem listMin_mem (l : List ℚ) (hl : l ≠ []) : listMin l ∈ l := by
  cases l with
  | nil => exact absurd rfl hl
  | cons q qs =>
    have hdef : listMin (q :: qs) = qs.foldl min q := rfl
    rw [hdef]
    rcases foldl_min_choice qs q with h | h
    · rw [h]; exact List.mem_cons_self q qs
    · exact List.mem_cons_of_mem q h

theorem oid_lt_freshOid (o : Obj) (l : List Obj) (ho : o ∈ l) :
    o.oid < freshOid l := by
  have : o.oid ≤ (l.map (fun o => o.oid)).foldr max 0 := by
    induction l with
    | nil => cases ho
    | cons a t ih =>
      rcases List.mem_cons.mp ho with h | h
      · subst h; exact le_max_left _ _
      · exact le_trans (ih h) (le_max_right _ _)
  exact Nat.lt_succ_of_le this

/- ### Claim C2 — per-axis adjustment is the minimum directional gap -/

/-- Claim C2, amended: in the test/game.js revision the per-axis adjustment
applied by `move` (the `minDistance` it adds to the advanced position when
the full-vector ghost collides) is the minimum over all colliding candidates
of the directional gap `distanceTo`: it is a lower bound of the gaps and is
attained by some candidate, on each axis; and `distanceTo` is zero on an axis
where the extents of the two rectangles already overlap. In the part_002
revision this fails: `Math.min` receives the array itself (no spread), so
with two or more candidates the adjustment is NaN (see the counterexample
theorem). -/
theorem minDistance_is_min_gap (self : Obj) (speed : ℚ × ℚ) (objects : List Obj)
    (h : moveCols self speed objects ≠ []) :
    (∀ o ∈ moveCols self speed objects,
        (minDistance self (moveCols self speed objects)).1 ≤ (distanceTo self o).1
          ∧ (minDistance self (moveCols self speed objects)).2 ≤ (distanceTo self o).2)
      ∧ (∃ o ∈ moveCols self speed objects,
          (minDistance self (moveCols self speed objects)).1 = (distanceTo self o).1)
      ∧ (∃ o ∈ moveCols self speed objects,
          (minDistance self (moveCols self speed objects)).2 = (distanceTo self o).2)
      ∧ (∀ o : Obj, self.x ≤ o.x + o.w → o.x ≤ self.x + self.w →
          (distanceTo self o).1 = 0)
      ∧ (∀ o : Obj, self.y ≤ o.y + o.h → o.y ≤ self.y + self.h →
          (distanceTo self o).2 = 0) := by
  refine ⟨?_, ?_, ?_, ?_, ?_⟩
  · intro o ho
    constructor
    · exact listMin_le _ _ (List.mem_map_of_mem (fun o => (distanceTo self o).1) ho)
    · exact listMin_le _ _ (List.mem_map_of_mem (fun o => (distanceTo self o).2) ho)
  · have hmem := listMin_mem ((moveCols self speed objects).map (fun o => (distanceTo self o).1))
      (by simpa using h)
    rcases List.mem_map.mp hmem with ⟨o, ho, heq⟩
    exact ⟨o, ho, heq.symm⟩
  · have hmem := listMin_mem ((moveCols self speed objects).map (fun o => (distanceTo self o).2))
      (by simpa using h)
    rcases List.mem_map.mp hmem with ⟨o, ho, heq⟩
    exact ⟨o, ho, heq.symm⟩
  · intro o h1 h2
    by_cases hc : collidesWith self o = true
    · simp [distanceTo, hc]
    · have h3 : ¬ (o.x + o.w < self.x) := not_lt.mpr h1
      have h4 : ¬ (self.x + self.w < o.x) := not_lt.mpr h2
      simp [distanceTo, hc, h3, h4]
  · intro o h1 h2
    by_cases hc : collidesWith self o = true
    · simp [distanceTo, hc]
    · have h3 : ¬ (o.y + o.h < self.y) := not_lt.mpr h1
      have h4 : ¬ (self.y + self.h < o.y) := not_lt.mpr h2
      simp [distanceTo, hc, h3, h4]

/-- Witness for the amended claim C2: a mover facing two walls 2 pixels to
its right; both walls collide with the full-vector ghost and the minimum gap
is attained. -/
theorem minDistance_is_min_gap_witness :
    (∀ o ∈ moveCols ⟨1, 0, 0, 32, 32, true⟩ ((10 : ℚ), (0 : ℚ))
        [⟨1, 0, 0, 32, 32, true⟩, ⟨2, 34, 0, 32, 32, true⟩, ⟨3, 34, 8, 32, 32, true⟩],
        (minDistance ⟨1, 0, 0, 32, 32, true⟩ (moveCols ⟨1, 0, 0, 32, 32, true⟩ ((10 : ℚ), (0 : ℚ))
          [⟨1, 0, 0, 32, 32, true⟩, ⟨2, 34, 0, 32, 32, true⟩, ⟨3, 34, 8, 32, 32, true⟩])).1
            ≤ (distanceTo ⟨1, 0, 0, 32, 32, true⟩ o).1
          ∧ (minDistance ⟨1, 0, 0, 32, 32, true⟩ (moveCols ⟨1, 0, 0, 32, 32, true⟩ ((10 : ℚ), (0 : ℚ))
          [⟨1, 0, 0, 32, 32, true⟩, ⟨2, 34, 0, 32, 32, true⟩, ⟨3, 34, 8, 32, 32, true⟩])).2
            ≤ (distanceTo ⟨1, 0, 0, 32, 32, true⟩ o).2)
      ∧ (∃ o ∈ moveCols ⟨1, 0, 0, 32, 32, true⟩ ((10 : ℚ), (0 : ℚ))
          [⟨1, 0, 0, 32, 32, true⟩, ⟨2, 34, 0, 32, 32, true⟩, ⟨3, 34, 8, 32, 32, true⟩],
          (minDistance ⟨1, 0, 0, 32, 32, true⟩ (moveCols ⟨1, 0, 0, 32, 32, true⟩ ((10 : ℚ), (0 : ℚ))
            [⟨1, 0, 0, 32, 32, true⟩, ⟨2, 34, 0, 32, 32, true⟩, ⟨3, 34, 8, 32, 32, true⟩])).1
              = (distanceTo ⟨1, 0, 0, 32, 32, true⟩ o).1) := by
  have hne : moveCols ⟨1, 0, 0, 32, 32, true⟩ ((10 : ℚ), (0 : ℚ))
      [⟨1, 0, 0, 32, 32, true⟩, ⟨2, 34, 0, 32, 32, true⟩, ⟨3, 34, 8, 32, 32, true⟩] ≠ [] := by
    norm_num [moveCols, allCollisions, moveProbeXY, freshOid, collidesWith, List.filter]
    exact List.cons_ne_nil _ _
  have hthm := minDistance_is_min_gap ⟨1, 0, 0, 32, 32, true⟩ ((10 : ℚ), (0 : ℚ))
      [⟨1, 0, 0, 32, 32, true⟩, ⟨2, 34, 0, 32, 32, true⟩, ⟨3, 34, 8, 32, 32, true⟩] hne
  exact ⟨hthm.1, hthm.2.1⟩

/- ### Claim C1 — which speed components survive a blocked move -/

/-- Counterexample for claim C1 at a diagonal corner. Mover 32x32 at the
origin, wall 32x32 at (34, 34), desired displacement (10, 10): the
full-vector ghost collides, the X-only ghost (at the adjusted x = 12 and the
original y = 0) is collision-free, so the claim predicts X-only committed
motion (12, 0); the code commits (2, 2) instead — when BOTH single-axis
ghosts are free it drops both speed components and moves only by the
gap-closing adjustment, diagonally up to the corner. -/
theorem move_diagonal_counterexample :
    0 < (moveCols ⟨1, 0, 0, 32, 32, true⟩ ((10 : ℚ), (10 : ℚ))
        [⟨1, 0, 0, 32, 32, true⟩, ⟨2, 34, 34, 32, 32, true⟩]).length
      ∧ (allCollisions (moveProbeX ⟨1, 0, 0, 32, 32, true⟩ ((10 : ℚ), (10 : ℚ))
          [⟨1, 0, 0, 32, 32, true⟩, ⟨2, 34, 34, 32, 32, true⟩])
          [⟨1, 0, 0, 32, 32, true⟩, ⟨2, 34, 34, 32, 32, true⟩]
          [⟨1, 0, 0, 32, 32, true⟩] false).length = 0
      ∧ move ⟨1, 0, 0, 32, 32, true⟩ ((10 : ℚ), (10 : ℚ))
          [⟨1, 0, 0, 32, 32, true⟩, ⟨2, 34, 34, 32, 32, true⟩] = (2, 2)
      ∧ ¬ move ⟨1, 0, 0, 32, 32, true⟩ ((10 : ℚ), (10 : ℚ))
          [⟨1, 0, 0, 32, 32, true⟩, ⟨2, 34, 34, 32, 32, true⟩]
          = ((0 : ℚ) + 10 + (minDistance ⟨1, 0, 0, 32, 32, true⟩
              (moveCols ⟨1, 0, 0, 32, 32, true⟩ ((10 : ℚ), (10 : ℚ))
                [⟨1, 0, 0, 32, 32, true⟩, ⟨2, 34, 34, 32, 32, true⟩])).1, (0 : ℚ)) := by
  refine ⟨?_, ?_, ?_, ?_⟩ <;>
    norm_num [move, moveCols, allCollisions, moveProbeXY, moveProbeX, moveProbeY,
      freshOid, collidesWith, distanceTo, minDistance, listMin, List.filter, min_def]

/-- Claim C1, amended: when the full-vector ghost collides, a speed
component survives on an axis exactly when the ghost of that axis is
collision-free AND the ghost of the other axis is blocked; in the two
remaining cases (both ghosts blocked, or both free) both speed components
are dropped and the mover moves only by the per-axis gap-closing adjustment
`minDistance` — it is not left unmoved when that adjustment is non-zero,
and an open X axis alone does not give X-only motion. -/
theorem move_keeps_only_unblocked_axis (self : Obj) (speed : ℚ × ℚ) (objects : List Obj)
    (h : 0 < (moveCols self speed objects).length) :
    (0 < (allCollisions (moveProbeX self speed objects) objects [self] false).length →
      ¬ 0 < (allCollisions (moveProbeY self speed objects) objects [self] false).length →
      move self speed objects
        = (self.x + (minDistance self (moveCols self speed objects)).1,
           self.y + speed.2 + (minDistance self (moveCols self speed objects)).2))
    ∧ (0 < (allCollisions (moveProbeY self speed objects) objects [self] false).length →
      ¬ 0 < (allCollisions (moveProbeX self speed objects) objects [self] false).length →
      move self speed objects
        = (self.x + speed.1 + (minDistance self (moveCols self speed objects)).1,
           self.y + (minDistance self (moveCols self speed objects)).2))
    ∧ ((0 < (allCollisions (moveProbeX self speed objects) objects [self] false).length
          ∧ 0 < (allCollisions (moveProbeY self speed objects) objects [self] false).length)
        ∨ (¬ 0 < (allCollisions (moveProbeX self speed objects) objects [self] false).length
          ∧ ¬ 0 < (allCollisions (moveProbeY self speed objects) objects [self] false).length) →
      move self speed objects
        = (self.x + (minDistance self (moveCols self speed objects)).1,
           self.y + (minDistance self (moveCols self speed objects)).2)) := by
  refine ⟨?_, ?_, ?_⟩
  · intro hX hY
    simp only [move, if_pos h, if_pos (And.intro hX hY)]
    refine Prod.ext ?_ ?_ <;> simp <;> ring
  · intro hY hX
    have h1 : ¬ (0 < (allCollisions (moveProbeX self speed objects) objects [self] false).length
        ∧ ¬ 0 < (allCollisions (moveProbeY self speed objects) objects [self] false).length) := by
      tauto
    simp only [move, if_pos h, if_neg h1, if_pos (And.intro hY hX)]
    refine Prod.ext ?_ ?_ <;> simp <;> ring
  · intro hor
    have h1 : ¬ (0 < (allCollisions (moveProbeX self speed objects) objects [self] false).length
        ∧ ¬ 0 < (allCollisions (moveProbeY self speed objects) objects [self] false).length) := by
      tauto
    have h2 : ¬ (0 < (allCollisions (moveProbeY self speed objects) objects [self] false).length
        ∧ ¬ 0 < (allCollisions (moveProbeX self speed objects) objects [self] false).length) := by
      tauto
    simp only [move, if_pos h, if_neg h1, if_neg h2]
    refine Prod.ext ?_ ?_ <;> simp <;> ring

/-- Witness for the amended claim C1: the slide scenario — wall two pixels
to the right, pure X displacement; the X ghost is blocked and the Y ghost is
free, so the mover keeps the Y component (zero) and closes the 2-pixel gap,
committing (2, 0). -/
theorem move_keeps_only_unblocked_axis_witness :
    0 < (moveCols ⟨1, 0, 0, 32, 32, true⟩ ((10 : ℚ), (0 : ℚ))
        [⟨1, 0, 0, 32, 32, true⟩, ⟨2, 34, 0, 32, 32, true⟩]).length
      ∧ move ⟨1, 0, 0, 32, 32, true⟩ ((10 : ℚ), (0 : ℚ))
          [⟨1, 0, 0, 32, 32, true⟩, ⟨2, 34, 0, 32, 32, true⟩] = (2, 0) := by
  have hpos : 0 < (moveCols ⟨1, 0, 0, 32, 32, true⟩ ((10 : ℚ), (0 : ℚ))
      [⟨1, 0, 0, 32, 32, true⟩, ⟨2, 34, 0, 32, 32, true⟩]).length := by
    norm_num [moveCols, allCollisions, moveProbeXY, freshOid, collidesWith, List.filter]
  have hX : 0 < (allCollisions (moveProbeX ⟨1, 0, 0, 32, 32, true⟩ ((10 : ℚ), (0 : ℚ))
      [⟨1, 0, 0, 32, 32, true⟩, ⟨2, 34, 0, 32, 32, true⟩])
      [⟨1, 0, 0, 32, 32, true⟩, ⟨2, 34, 0, 32, 32, true⟩]
      [⟨1, 0, 0, 32, 32, true⟩] false).length := by
    norm_num [moveProbeX, minDistance, distanceTo, listMin, moveCols, allCollisions,
      moveProbeXY, freshOid, collidesWith, List.filter, min_def]
  have hY : ¬ 0 < (allCollisions (moveProbeY ⟨1, 0, 0, 32, 32, true⟩ ((10 : ℚ), (0 : ℚ))
      [⟨1, 0, 0, 32, 32, true⟩, ⟨2, 34, 0, 32, 32, true⟩])
      [⟨1, 0, 0, 32, 32, true⟩, ⟨2, 34, 0, 32, 32, true⟩]
      [⟨1, 0, 0, 32, 32, true⟩] false).length := by
    norm_num [moveProbeY, minDistance, distanceTo, listMin, moveCols, allCollisions,
      moveProbeXY, freshOid, collidesWith, List.filter, min_def]
  have hmain := (move_keeps_only_unblocked_axis ⟨1, 0, 0, 32, 32, true⟩ ((10 : ℚ), (0 : ℚ))
      [⟨1, 0, 0, 32, 32, true⟩, ⟨2, 34, 0, 32, 32, true⟩] hpos).1 hX hY
  refine ⟨hpos, hmain.trans ?_⟩
  norm_num [minDistance, distanceTo, moveCols, allCollisions, moveProbeXY,
    freshOid, collidesWith, List.filter, listMin, min_def]

/- ### Claim C10 — probes are collidable whatever the mover is -/

theorem allCollisions_cons_excluded (p e hd : Obj) (others : List Obj)
    (hoid : hd.oid = e.oid) :
    allCollisions p (hd :: others) [e] false = allCollisions p others [e] false := by
  unfold allCollisions
  rw [List.filter_cons]
  have hany : ([e].any (fun x => decide (x.oid = hd.oid))) = true := by
    simp [hoid]
  simp [hany]

theorem allCollisions_exclude_oid_congr (p : Obj) (objects : List Obj) (e f : Obj)
    (h : e.oid = f.oid) :
    allCollisions p objects [e] false = allCollisions p objects [f] false := by
  unfold allCollisions
  congr 1
  funext o
  simp [h]

theorem move_flag_invariant (m : Obj) (b : Bool) (speed : ℚ × ℚ) (others : List Obj) :
    move { m with collision := b } speed ({ m with collision := b } :: others)
      = move m speed (m :: others) := by
  have hoid : ({ m with collision := b } : Obj).oid = m.oid := rfl
  have hprobe : moveProbeXY { m with collision := b } speed ({ m with collision := b } :: others)
      = moveProbeXY m speed (m :: others) := rfl
  have hcols : moveCols { m with collision := b } speed ({ m with collision := b } :: others)
      = moveCols m speed (m :: others) := by
    unfold moveCols
    rw [hprobe]
    rw [allCollisions_cons_excluded _ { m with collision := b } { m with collision := b } others rfl]
    rw [allCollisions_exclude_oid_congr _ others { m with collision := b } m hoid]
    rw [← allCollisions_cons_excluded (moveProbeXY m speed (m :: others)) m m others rfl]
  have hpX : moveProbeX { m with collision := b } speed ({ m with collision := b } :: others)
      = moveProbeX m speed (m :: others) := by
    unfold moveProbeX
    rw [hcols]
    rfl
  have hpY : moveProbeY { m with collision := b } speed ({ m with collision := b } :: others)
      = moveProbeY m speed (m :: others) := by
    unfold moveProbeY
    rw [hcols]
    rfl
  simp only [move]
  rw [hcols, hpX, hpY]
  rw [allCollisions_cons_excluded (moveProbeX m speed (m :: others))
        { m with collision := b } { m with collision := b } others rfl,
      allCollisions_exclude_oid_congr (moveProbeX m speed (m :: others)) others
        { m with collision := b } m hoid,
      ← allCollisions_cons_excluded (moveProbeX m speed (m :: others)) m m others rfl]
  rw [allCollisions_cons_excluded (moveProbeY m speed (m :: others))
        { m with collision := b } { m with collision := b } others rfl,
      allCollisions_exclude_oid_congr (moveProbeY m speed (m :: others)) others
        { m with collision := b } m hoid,
      ← allCollisions_cons_excluded (moveProbeY m speed (m :: others)) m m others rfl]
  rfl

theorem move_blocks_all (m : Obj) (speed : ℚ × ℚ) (others : List Obj) :
    ∀ o ∈ m :: others, o.collision = true → o.oid ≠ m.oid →
      collidesWith (moveProbeXY m speed (m :: others)) o = true →
      o ∈ moveCols m speed (m :: others) := by
  intro o ho hcol hoid hcw
  have hlt : o.oid < freshOid (m :: m :: others) :=
    oid_lt_freshOid o (m :: m :: others) (List.mem_cons_of_mem m ho)
  have h1 : ¬ (o.oid = freshOid (m :: m :: others)) := Nat.ne_of_lt hlt
  have h2 : ¬ (m.oid = o.oid) := fun hh => hoid hh.symm
  unfold moveCols allCollisions
  rw [List.mem_filter]
  refine ⟨ho, ?_⟩
  simp only [moveProbeXY] at hcw
  simp [moveProbeXY, h1, h2, hcol, hcw]

/-- Claim C10, confirmed: the ghost rectangles of `move` are created with
collision: true whatever the mover carries, so (1) the committed motion of a
mover — here, a mover listed in its own level — is unchanged when its own
`collision` flag is flipped, and (2) every other level entity with
collision = true that overlaps the full-vector ghost is among the blocking
candidates of the move; a non-collidable mover is not exempt from blocking. -/
theorem move_probe_ignores_mover_flag (m : Obj) (b : Bool) (speed : ℚ × ℚ)
    (others : List Obj) :
    move { m with collision := b } speed ({ m with collision := b } :: others)
      = move m speed (m :: others)
    ∧ ∀ o ∈ m :: others, o.collision = true → o.oid ≠ m.oid →
        collidesWith (moveProbeXY m speed (m :: others)) o = true →
        o ∈ moveCols m speed (m :: others) :=
  ⟨move_flag_invariant m b speed others, move_blocks_all m speed others⟩

/-- Witness for claim C10: a mover with collision = false facing a wall with
collision = true; flipping the flag does not change the committed motion and
the wall is a blocking candidate. -/
theorem move_probe_ignores_mover_flag_witness :
    move { (⟨1, 0, 0, 32, 32, true⟩ : Obj) with collision := false } ((10 : ℚ), (0 : ℚ))
        [{ (⟨1, 0, 0, 32, 32, true⟩ : Obj) with collision := false }, ⟨2, 34, 0, 32, 32, true⟩]
      = move ⟨1, 0, 0, 32, 32, true⟩ ((10 : ℚ), (0 : ℚ))
        [⟨1, 0, 0, 32, 32, true⟩, ⟨2, 34, 0, 32, 32, true⟩]
      ∧ (⟨2, 34, 0, 32, 32, true⟩ : Obj) ∈ moveCols ⟨1, 0, 0, 32, 32, true⟩ ((10 : ℚ), (0 : ℚ))
        [⟨1, 0, 0, 32, 32, true⟩, ⟨2, 34, 0, 32, 32, true⟩] := by
  constructor
  · exact (move_probe_ignores_mover_flag ⟨1, 0, 0, 32, 32, true⟩ false ((10 : ℚ), (0 : ℚ))
      [⟨2, 34, 0, 32, 32, true⟩]).1
  · exact (move_probe_ignores_mover_flag ⟨1, 0, 0, 32, 32, true⟩ false ((10 : ℚ), (0 : ℚ))
      [⟨2, 34, 0, 32, 32, true⟩]).2 ⟨2, 34, 0, 32, 32, true⟩ (by simp) rfl (by norm_num)
      (by norm_num [moveProbeXY, freshOid, collidesWith])

/- ### Claim C7 — what allCollisions returns -/

/-- Counterexample for claim C7: in the game-engine.js revision of
`allCollisions`, only the flag of the OTHER object is consulted — a
non-collidable receiver overlapping a collidable object still collects it,
although the claim requires BOTH flags under default options. -/
theorem allCollisionsGE_ignores_receiver_flag :
    allCollisionsGE ⟨1, 0, 0, 32, 32, false⟩
        [⟨1, 0, 0, 32, 32, false⟩, ⟨2, 16, 0, 32, 32, true⟩]
      = [⟨2, 16, 0, 32, 32, true⟩]
      ∧ (⟨1, 0, 0, 32, 32, false⟩ : Obj).collision = false := by
  refine ⟨by norm_num [allCollisionsGE, objectsCollide, List.filter], rfl⟩

/-- Claim C7, amended: the optioned `allCollisions` of the part_002/test
revisions returns exactly the level objects distinct from the receiver (by
reference), not in the exclude list, passing the flag check — both flags
required unless forceCollision is set, which bypasses it entirely — and
geometrically overlapping per `collidesWith`. The un-optioned game-engine.js
revision checks only the flag of the other object (and uses the inclusive
`objectsCollide`), so there the BOTH-flags clause does not hold. -/
theorem allCollisions_characterization (self o : Obj) (objects exclude : List Obj)
    (force : Bool) :
    (o ∈ allCollisions self objects exclude force ↔
      o ∈ objects ∧ o.oid ≠ self.oid ∧ (∀ e ∈ exclude, e.oid ≠ o.oid)
        ∧ (force = true ∨ (self.collision = true ∧ o.collision = true))
        ∧ collidesWith self o = true)
    ∧ (o ∈ allCollisionsGE self objects ↔
      o ∈ objects ∧ o.oid ≠ self.oid ∧ o.collision = true
        ∧ objectsCollide self o = true) := by
  constructor
  · unfold allCollisions
    rw [List.mem_filter]
    simp only [Bool.and_eq_true, Bool.not_eq_true', decide_eq_false_iff_not,
      List.any_eq_false, decide_eq_true_eq, Bool.or_eq_true]
    tauto
  · unfold allCollisionsGE
    rw [List.mem_filter]
    simp only [Bool.and_eq_true, Bool.not_eq_true', decide_eq_false_iff_not]
    tauto

/- ### JavaScript-number layer: Option Rat with none as NaN -/

/-- A JavaScript number in the paths this development evaluates: a finite
value represented exactly as a rational, or `none` for NaN. -/
abbrev JSVal := Option ℚ

def jadd : JSVal → JSVal → JSVal
  | some a, some b => some (a + b)
  | _, _ => none

def jsub : JSVal → JSVal → JSVal
  | some a, some b => some (a - b)
  | _, _ => none

def jmul : JSVal → JSVal → JSVal
  | some a, some b => some (a * b)
  | _, _ => none

/-- Division. In JavaScript a nonzero value divided by zero is Infinity, not
NaN; the only division this development evaluates is 0/0 (which is NaN), so
`none` stands in for every non-finite outcome. -/
def jdiv : JSVal → JSVal → JSVal
  | some a, some b => if b = 0 then none else some (a / b)
  | _, _ => none

/-- Comparison: every comparison against NaN is false, as in JavaScript. -/
def jle : JSVal → JSVal → Bool
  | some a, some b => decide (a ≤ b)
  | _, _ => false

def jlt : JSVal → JSVal → Bool
  | some a, some b => decide (a < b)
  | _, _ => false

/-- Square root of a rational, exact when the argument is the square of a
rational (numerator and denominator of the reduced fraction both perfect
squares), `none` otherwise. An irrational square root has no exact rational
representation; every path evaluated below takes the square root of 0 or of
NaN, where this model agrees with JavaScript. -/
def ratSqrt (q : ℚ) : JSVal :=
  if q < 0 then none
  else if Nat.sqrt q.num.toNat * Nat.sqrt q.num.toNat = q.num.toNat
      ∧ Nat.sqrt q.den * Nat.sqrt q.den = q.den
  then some ((Nat.sqrt q.num.toNat : ℚ) / (Nat.sqrt q.den : ℚ))
  else none

def jsqrt : JSVal → JSVal
  | some q => ratSqrt q
  | none => none

/-- GameObject over JS-number coordinates, with the `maxSpeed` field used by
moveByVector. -/
structure ObjJ where
  oid : Nat
  x : JSVal
  y : JSVal
  w : JSVal
  h : JSVal
  maxSpeed : JSVal
  collision : Bool
deriving DecidableEq, Repr

/-- `GameObject.collidesWith` over JS numbers (same comparisons as
`collidesWith`; with a NaN coordinate every comparison is false, so nothing
collides with a NaN-positioned object). -/
def collidesWithJ (a b : ObjJ) : Bool :=
  ((jle a.x b.x && jlt b.x (jadd a.x a.w))
      || (jlt a.x (jadd b.x b.w) && jle (jadd b.x b.w) (jadd a.x a.w)))
    &&
  ((jle a.y b.y && jlt b.y (jadd a.y a.h))
      || (jlt a.y (jadd b.y b.h) && jle (jadd b.y b.h) (jadd a.y a.h)))

/-- `GameObject.distanceTo` over JS numbers. -/
def distanceToJ (a b : ObjJ) : JSVal × JSVal :=
  if collidesWithJ a b then (some 0, some 0)
  else
    ((if jlt (jadd b.x b.w) a.x then jsub (jadd b.x b.w) a.x
      else if jlt (jadd a.x a.w) b.x then jsub b.x (jadd a.x a.w)
      else some 0),
     (if jlt (jadd b.y b.h) a.y then jsub (jadd b.y b.h) a.y
      else if jlt (jadd a.y a.h) b.y then jsub b.y (jadd a.y a.h)
      else some 0))

/-- `GameObject.allCollisions` over JS numbers. -/
def allCollisionsJ (self : ObjJ) (objects : List ObjJ) (exclude : List ObjJ)
    (force : Bool) : List ObjJ :=
  objects.filter (fun o =>
    !(decide (o.oid = self.oid))
      && !(exclude.any (fun e => decide (e.oid = o.oid)))
      && (force || (self.collision && o.collision))
      && collidesWithJ self o)

def freshOidJ (objects : List ObjJ) : Nat :=
  (objects.map (fun o => o.oid)).foldr max 0 + 1

/-- Math.min of two JS numbers: NaN absorbs. -/
def jmin : JSVal → JSVal → JSVal
  | some a, some b => some (min a b)
  | _, _ => none

/-- Math.min over a SPREAD non-empty list (the test/game.js revision,
`Math.min(...distances.map(d => d.x))`); the empty case is unreachable under
the non-empty guard of move. -/
def jminSpread : List JSVal → JSVal
  | [] => some 0
  | v :: vs => vs.foldl jmin v

/-- Math.min applied to the ARRAY value itself (the part_002 revision,
`Math.min(distances.map(d => d.x))` — no spread): the single argument is
coerced with Number, so an empty array gives 0, a one-element array its
element, and any longer array NaN. -/
def jminArray : List JSVal → JSVal
  | [] => some 0
  | [v] => v
  | _ => none

/-- The movement core of `GameObject.move` over JS numbers, with the per-axis
minimum computed by minFn: `jminSpread` gives the test/game.js revision and
`jminArray` the part_002 revision — the two sources differ in nothing else. -/
def moveJCore (minFn : List JSVal → JSVal) (self : ObjJ) (speed : JSVal × JSVal)
    (objects : List ObjJ) : JSVal × JSVal :=
  let x := jadd self.x speed.1
  let y := jadd self.y speed.2
  let probe : ObjJ := ⟨freshOidJ (self :: objects), x, y, self.w, self.h, some 0, true⟩
  let cols := allCollisionsJ probe objects [self] false
  if 0 < cols.length then
    let dx := minFn (cols.map (fun o => (distanceToJ self o).1))
    let dy := minFn (cols.map (fun o => (distanceToJ self o).2))
    let x2 := jadd x dx
    let y2 := jadd y dy
    let pX : ObjJ := ⟨freshOidJ (self :: objects), x2, self.y, self.w, self.h, some 0, true⟩
    let pY : ObjJ := ⟨freshOidJ (self :: objects), self.x, y2, self.w, self.h, some 0, true⟩
    let cX := 0 < (allCollisionsJ pX objects [self] false).length
    let cY := 0 < (allCollisionsJ pY objects [self] false).length
    if cX ∧ ¬ cY then (jsub x2 speed.1, y2)
    else if cY ∧ ¬ cX then (x2, jsub y2 speed.2)
    else (jsub x2 speed.1, jsub y2 speed.2)
  else (x, y)

/-- `GameObject.move` of src/test/game.js over JS numbers. -/
def moveJ : ObjJ → JSVal × JSVal → List ObjJ → JSVal × JSVal :=
  moveJCore jminSpread

/-- `GameObject.move` of src/unnamed/part_002 over JS numbers. -/
def movePart002J : ObjJ → JSVal × JSVal → List ObjJ → JSVal × JSVal :=
  moveJCore jminArray

/-- `GameObject.moveByVector` (src/unnamed/part_002 lines 791-801 and
src/test/game.js lines 722-733, identical): cos is x divided by the norm,
sin is y times the square root of 1 minus cos squared, the speed is maxSpeed
times (cos, sin), after which move commits. Returns the derived speed and
the committed position. -/
def moveByVectorJ (self : ObjJ) (vx vy : JSVal) (objects : List ObjJ) :
    (JSVal × JSVal) × (JSVal × JSVal) :=
  let c := jdiv vx (jsqrt (jadd (jmul vx vx) (jmul vy vy)))
  let s := jmul vy (jsqrt (jsub (some 1) (jmul c c)))
  let speed := (jmul self.maxSpeed c, jmul self.maxSpeed s)
  (speed, moveJ self speed objects)

/- ### Claim C3 — zero-length direction vector -/

/-- Claim C3 concerns a code bug: for the zero vector, moveByVector computes
cos = 0 / Math.sqrt(0) = 0/0 = NaN, hence speed (NaN, NaN) — not (0, 0) —
and move then commits the position (NaN, NaN), because a NaN-positioned
ghost collides with nothing (all comparisons false) so the full vector is
applied. Evaluated here on the test scene (player 32x32 with maxSpeed 5 at
(32, 128), wall 32x32 at (32, 32)): the claimed behaviour — speed (0, 0)
and position unchanged — is exactly what does NOT happen. -/
theorem moveByVector_zero_vector_commits_nan :
    moveByVectorJ ⟨1, some 32, some 128, some 32, some 32, some 5, true⟩ (some 0) (some 0)
        [⟨1, some 32, some 128, some 32, some 32, some 5, true⟩,
         ⟨2, some 32, some 32, some 32, some 32, some 0, true⟩]
      = ((none, none), (none, none))
      ∧ ((none, none) : JSVal × JSVal) ≠ (some 0, some 0)
      ∧ ((none, none) : JSVal × JSVal) ≠ (some 32, some 128) := by
  refine ⟨?_, by simp, by simp⟩
  norm_num [moveByVectorJ, moveJ, moveJCore, jminSpread, jmin, allCollisionsJ,
    collidesWithJ, distanceToJ, freshOidJ, jadd, jsub, jmul, jdiv, jle, jlt,
    jsqrt, ratSqrt, List.filter]

/- ### Claim C2, counterexample side -/

set_option maxHeartbeats 1000000 in
/-- Counterexample for claim C2: a mover facing TWO walls (both 2 pixels to
the right). In the part_002 revision `Math.min` receives the two-element
distances array itself, which Number-coerces to NaN, so the committed
coordinates are NaN — not the advanced-by-minimum-gap position (2, 0) that
the claim describes and that the test/game.js revision (spread min)
computes. -/
theorem movePart002_two_colliders_nan :
    movePart002J ⟨1, some 0, some 0, some 32, some 32, some 0, true⟩ (some 10, some 0)
        [⟨1, some 0, some 0, some 32, some 32, some 0, true⟩,
         ⟨2, some 34, some 0, some 32, some 32, some 0, true⟩,
         ⟨3, some 34, some 8, some 32, some 32, some 0, true⟩]
      = (none, none)
      ∧ moveJ ⟨1, some 0, some 0, some 32, some 32, some 0, true⟩ (some 10, some 0)
        [⟨1, some 0, some 0, some 32, some 32, some 0, true⟩,
         ⟨2, some 34, some 0, some 32, some 32, some 0, true⟩,
         ⟨3, some 34, some 8, some 32, some 32, some 0, true⟩]
      = (some 2, some 0)
      ∧ ((none, none) : JSVal × JSVal) ≠ (some 2, some 0) := by
  refine ⟨?_, ?_, by simp⟩
  · norm_num [movePart002J, moveJCore, jminArray, allCollisionsJ,
      collidesWithJ, distanceToJ, freshOidJ, jadd, jsub, jmul, jle, jlt, List.filter]
  · norm_num [moveJ, moveJCore, jminSpread, jmin, allCollisionsJ,
      collidesWithJ, distanceToJ, freshOidJ, jadd, jsub, jmul, jle, jlt,
      List.filter, min_def]

/- ### Claim C4 — tick scheduling (requestUpdates / gameLoop) -/

/-- Timing state of the game loop of src/game-engine.js lines 58-97:
lastTick, the in-flight flag of the update (computing) and the pause flag.
Rendering touches none of these fields and is not modelled. -/
structure LoopState where
  lastTick : ℚ
  computing : Bool
  paused : Bool
deriving DecidableEq, Repr

/-- tickDuration = 1000 / tickRate (src/game-engine.js line 61). -/
def tickDuration (tickRate : ℚ) : ℚ := 1000 / tickRate

/-- The tick count of one gameLoop frame (src/game-engine.js lines 84-89):
zero unless frameTime strictly exceeds nextTick = lastTick + tickDuration,
else the floor of elapsed / tickDuration. -/
def computeTicks (tickRate : ℚ) (s : LoopState) (frameTime : ℚ) : ℤ :=
  if s.lastTick + tickDuration tickRate < frameTime then
    ⌊(frameTime - s.lastTick) / tickDuration tickRate⌋
  else 0

/-- requestUpdates (src/game-engine.js lines 66-74): drop non-positive tick
counts and frames with an update in flight; otherwise advance lastTick by
ticks times tickDuration and invoke the external update callback exactly
once with the tick count — the returned list records the invocations.
The computing flag is set around the synchronous call and is false again in
the returned state. -/
def requestUpdates (tickRate : ℚ) (s : LoopState) (ticks : ℤ) : LoopState × List ℤ :=
  if ticks ≤ 0 then (s, [])
  else if s.computing then (s, [])
  else (⟨s.lastTick + ticks * tickDuration tickRate, false, s.paused⟩, [ticks])

/-- One frame of gameLoop (src/game-engine.js lines 80-93): do nothing while
paused, otherwise compute the due ticks and request the update. -/
def gameLoopFrame (tickRate : ℚ) (s : LoopState) (frameTime : ℚ) : LoopState × List ℤ :=
  if s.paused then (s, [])
  else requestUpdates tickRate s (computeTicks tickRate s frameTime)

/-- Counterexample for claim C4: at the exact boundary frameTime = lastTick +
tickDuration (here 20 = 0 + 20 at tickRate 50) the claimed formula
floor((frameTime - lastTick) / tickDuration) gives 1, but the strict guard
`frameTime > nextTick` of the code gives 0 ticks: no update is invoked and
lastTick does not advance. -/
theorem gameLoopFrame_boundary_counterexample :
    gameLoopFrame 50 ⟨0, false, false⟩ 20 = (⟨0, false, false⟩, [])
      ∧ ⌊((20 : ℚ) - 0) / tickDuration 50⌋ = 1 := by
  constructor
  · norm_num [gameLoopFrame, requestUpdates, computeTicks, tickDuration]
  · norm_num [tickDuration]

/-- Claim C4, amended: on an unpaused frame with no update in flight, the
due tick count is floor((frameTime - lastTick) / tickDuration) when
frameTime strictly exceeds lastTick + tickDuration and 0 otherwise; in the
strict case the count is positive, and whenever the count is positive
lastTick advances by exactly count times tickDuration while the update
callback is invoked exactly once, receiving the whole count (coalesced); a
non-positive count leaves the state unchanged and invokes nothing. -/
theorem gameLoopFrame_coalesced_ticks (tickRate : ℚ) (s : LoopState) (frameTime : ℚ)
    (hrate : 0 < tickRate) (hpause : s.paused = false) (hcomp : s.computing = false) :
    (computeTicks tickRate s frameTime
        = if s.lastTick + tickDuration tickRate < frameTime
          then ⌊(frameTime - s.lastTick) / tickDuration tickRate⌋ else 0)
      ∧ (s.lastTick + tickDuration tickRate < frameTime →
          0 < computeTicks tickRate s frameTime)
      ∧ (0 < computeTicks tickRate s frameTime →
          gameLoopFrame tickRate s frameTime
            = (⟨s.lastTick + (computeTicks tickRate s frameTime) * tickDuration tickRate,
                false, s.paused⟩, [computeTicks tickRate s frameTime]))
      ∧ (computeTicks tickRate s frameTime ≤ 0 →
          gameLoopFrame tickRate s frameTime = (s, [])) := by
  have hdur : 0 < tickDuration tickRate := by
    unfold tickDuration; positivity
  refine ⟨rfl, ?_, ?_, ?_⟩
  · intro hlt
    unfold computeTicks
    rw [if_pos hlt]
    have h1 : (1 : ℚ) ≤ (frameTime - s.lastTick) / tickDuration tickRate := by
      rw [le_div_iff₀ hdur]
      linarith
    have := Int.le_floor.mpr
      (by push_cast; linarith :
        ((1 : ℤ) : ℚ) ≤ (frameTime - s.lastTick) / tickDuration tickRate)
    omega
  · intro hpos
    unfold gameLoopFrame requestUpdates
    rw [if_neg (by simp [hpause])]
    rw [if_neg (by omega)]
    rw [if_neg (by simp [hcomp])]
  · intro hle
    unfold gameLoopFrame requestUpdates
    rw [if_neg (by simp [hpause])]
    rw [if_pos hle]

/-- Witness for the amended claim C4: tickRate 50 (tickDuration 20 ms),
lastTick 0, frame at 45 ms: two ticks are due, lastTick advances to 40, and
the update callback is invoked once with ticksElapsed = 2. -/
theorem gameLoopFrame_coalesced_ticks_witness :
    0 < computeTicks 50 ⟨0, false, false⟩ 45
      ∧ gameLoopFrame 50 ⟨0, false, false⟩ 45 = (⟨40, false, false⟩, [2]) := by
  have hpos : 0 < computeTicks 50 ⟨0, false, false⟩ 45 := by
    norm_num [computeTicks, tickDuration]
  have h := (gameLoopFrame_coalesced_ticks 50 ⟨0, false, false⟩ 45
    (by norm_num) rfl rfl).2.2.1 hpos
  refine ⟨hpos, h.trans ?_⟩
  norm_num [computeTicks, tickDuration]

/- ### Claim C8 — loadLevel with an unknown id -/

/-- The Game fields loadLevel touches in src/game-engine.js: `pauseSlot`
models the `pause` PROPERTY written by `this.pause = true` (an assignment
that clobbers the pause() method), `paused` the flag the game loop actually
reads, `level` the active level of state.level and `levels` the registered
level ids. -/
structure GameG where
  pauseSlot : Bool
  paused : Bool
  level : Option Nat
  levels : List Nat
deriving DecidableEq, Repr

/-- `Game.loadLevel` of src/game-engine.js lines 163-169. With an unknown
id, `this.levels.find(...)` is undefined and `lev.load()` throws a
TypeError: the returned flag is true for a throw, and the state shows what
was committed before it — `pause` set (a dead property), `paused` untouched,
`state.level` untouched. With a known id the level loads (asset fetching is
out of scope) and is swapped in. -/
def loadLevelGE (g : GameG) (id : Nat) : GameG × Bool :=
  let g1 : GameG := ⟨true, g.paused, g.level, g.levels⟩
  match g1.levels.find? (fun l => l = id) with
  | none => (g1, true)
  | some lev => (⟨false, g1.paused, some lev, g1.levels⟩, false)

/-- The Game fields loadLevel touches in the TypeScript revision. -/
structure GameTS where
  paused : Bool
  level : Option Nat
  levels : List Nat
deriving DecidableEq, Repr

/-- `Game.loadLevel` of the TypeScript revision (src/test/game.js lines
401-407): sets `paused` (correctly), but calls `newLevel?.load()`, so an
unknown id throws nothing: `state.level` is overwritten with undefined
(none) and `paused` is reset to false. Nothing fails. -/
def loadLevelTS (g : GameTS) (id : Nat) : GameTS :=
  let g1 : GameTS := ⟨true, g.level, g.levels⟩
  let found := g1.levels.find? (fun l => l = id)
  ⟨false, found, g1.levels⟩

/-- Claim C8 concerns a code bug; this theorem evaluates both loadLevel
revisions at the failing input (unknown id 99, active level 0, registered
levels [0]). game-engine.js: the call throws (flag true) and the active
level survives, but `paused` is still false — the loop was never paused,
because `this.pause = true` wrote a dead property. TypeScript revision: no
throw at all, and the active level is REPLACED by undefined. Neither
matches the claim (fail with LevelNotFoundError, loop left paused, active
level kept). -/
theorem loadLevel_unknown_id_divergence :
    loadLevelGE ⟨false, false, some 0, [0]⟩ 99 = (⟨true, false, some 0, [0]⟩, true)
      ∧ (loadLevelGE ⟨false, false, some 0, [0]⟩ 99).1.paused = false
      ∧ (loadLevelGE ⟨false, false, some 0, [0]⟩ 99).1.level = some 0
      ∧ loadLevelTS ⟨false, some 0, [0]⟩ 99 = ⟨false, none, [0]⟩ := by
  refine ⟨?_, ?_, ?_, ?_⟩ <;> decide

/- ### Claim C9 — asset-load idempotence -/

/-- An asset of a level: its identifier and whether decoded data is already
attached (`asset.data`). -/
structure Asset where
  id : Nat
  dataLoaded : Bool
deriving DecidableEq, Repr

/-- The assets fetched by one `Level.load` pass of src/unnamed/part_002
lines 597-640 and src/test/game.js lines 514-558: the guard
`if (!!asset.data) return asset.data;` skips every asset already carrying
data, so exactly the not-yet-loaded ones are fetched. The old-level release
loop (`if (!assets.has(asset)) asset.data = null`) only touches assets
absent from the level being loaded and cannot affect this list. -/
def fetchedOnLoad (assets : List Asset) : List Asset :=
  assets.filter (fun a => !a.dataLoaded)

/-- The asset list after a `Level.load` pass of the part_002/test revisions:
every asset carries data. -/
def levelLoad (assets : List Asset) : List Asset :=
  assets.map (fun a => ⟨a.id, true⟩)

/-- The assets fetched by `Level.load` of src/game-engine.js lines 253-272:
there is NO data guard — every asset of the level is fetched (and sounds
even decoded twice) on every call. -/
def fetchedOnLoadGE (assets : List Asset) : List Asset :=
  assets

/-- Counterexample for claim C9: the game-engine.js revision of Level.load
re-fetches an asset that already carries decoded data. -/
theorem loadGE_refetches_loaded_asset :
    (⟨7, true⟩ : Asset) ∈ fetchedOnLoadGE [⟨7, true⟩]
      ∧ (⟨7, true⟩ : Asset).dataLoaded = true := by
  refine ⟨by simp [fetchedOnLoadGE], rfl⟩

/-- Claim C9, amended: in the part_002/test revisions of Level.load an asset
already carrying decoded data is never fetched again, and a second load of
the same level fetches nothing at all; the game-engine.js revision has no
such guard and re-fetches every asset on each call (see the
counterexample). -/
theorem load_idempotent (assets : List Asset) :
    (∀ a ∈ assets, a.dataLoaded = true → a ∉ fetchedOnLoad assets)
      ∧ fetchedOnLoad (levelLoad assets) = [] := by
  constructor
  · intro a _ hd hmem
    have hflag := (List.mem_filter.mp hmem).2
    rw [hd] at hflag
    cases hflag
  · unfold fetchedOnLoad levelLoad
    induction assets with
    | nil => rfl
    | cons a t ih => simpa using ih

/-- Witness for the amended claim C9: a level with one loaded and one
unloaded asset — the loaded one is not fetched, and after a full load a
second load fetches nothing. -/
theorem load_idempotent_witness :
    (⟨7, true⟩ : Asset) ∉ fetchedOnLoad [⟨7, true⟩, ⟨8, false⟩]
      ∧ fetchedOnLoad (levelLoad [⟨7, true⟩, ⟨8, false⟩]) = [] :=
  ⟨(load_idempotent [⟨7, true⟩, ⟨8, false⟩]).1 ⟨7, true⟩ (by simp) rfl,
   (load_idempotent [⟨7, true⟩, ⟨8, false⟩]).2⟩

/-- Witness for the amended claim C7: an overlapping collidable pair with an
empty exclude list and default flags is returned by allCollisions. -/
theorem allCollisions_characterization_witness :
    (⟨2, 16, 0, 32, 32, true⟩ : Obj) ∈ allCollisions ⟨1, 0, 0, 32, 32, true⟩
        [⟨1, 0, 0, 32, 32, true⟩, ⟨2, 16, 0, 32, 32, true⟩] [] false :=
  ((allCollisions_characterization ⟨1, 0, 0, 32, 32, true⟩ ⟨2, 16, 0, 32, 32, true⟩
      [⟨1, 0, 0, 32, 32, true⟩, ⟨2, 16, 0, 32, 32, true⟩] [] false).1).mpr
    ⟨by simp, by norm_num, by simp, Or.inr ⟨rfl, rfl⟩, by norm_num [collidesWith]⟩
